import Mathlib

/-!
Verification of the room-coordination core of the draw-on-my-phone game.

The development shallowly embeds the TypeScript sources:
* `src/shared/src/game-logic.ts` — pure round/rotation arithmetic
  (`getEffectiveRound`, `getTaskType`, `getChainOwnerPosition`,
  `getCurrentHolderPosition`, `getNextChainHolder`, `isGameComplete`,
  `getTotalRounds`);
* the worker route handlers (`/api/game/create`, `/api/game/:id/join`,
  `/api/game/:id/start`, `/api/game/:id/submit`);
* the database model helpers (`db/models/games.ts`, `db/models/players.ts`,
  `db/models/submissions.ts`);
* the `GameRoom` durable object (`src/server/src/durable-object.ts`):
  its `alarm` handler and its broadcast tiering.

JavaScript numbers are modelled as `Int`; the JavaScript remainder
operator `%` truncates toward zero, which is exactly `Int.tmod`.
JavaScript `x || y` fallbacks on nullable numbers/strings are modelled
explicitly (`null` and `0` / the empty string are falsy).
-/

namespace DrawGame

/-- Task categories, `TaskType` in `src/shared/src/types.ts`. -/
inductive TaskType where
  | word
  | draw
  | guess
deriving DecidableEq, Repr

/-- Embedding of `getEffectiveRound` (game-logic.ts line 41):
`(isEvenPlayers && currentRound >= 1) ? currentRound - 1 : currentRound`
with `isEvenPlayers = playerCount % 2 === 0`. -/
def getEffectiveRound (currentRound playerCount : Int) : Int :=
  if playerCount.tmod 2 = 0 ∧ 1 ≤ currentRound then currentRound - 1 else currentRound

/-- Embedding of the current one-argument `getTaskType` (game-logic.ts line 55). -/
def getTaskType (round : Int) : TaskType :=
  if round = 0 then .word
  else if round.tmod 2 = 1 then .draw else .guess

/-- Embedding of the earlier two-argument `getTaskType` variant
(`src/unnamed/part_000` line 18); its `playerCount` argument is unused. -/
def getTaskTypeLegacy (round _playerCount : Int) : TaskType :=
  if round = 0 then .word
  else if round.tmod 2 = 1 then .draw else .guess

/-- Embedding of `getChainOwnerPosition` (game-logic.ts line 72):
`(myTurnPosition - effectiveRound + playerCount) % playerCount`. -/
def getChainOwnerPosition (myTurnPosition currentRound playerCount : Int) : Int :=
  (myTurnPosition - getEffectiveRound currentRound playerCount + playerCount).tmod playerCount

/-- Embedding of `getCurrentHolderPosition` (game-logic.ts line 93):
`(chainOwnerPosition + effectiveRound) % playerCount`. -/
def getCurrentHolderPosition (chainOwnerPosition currentRound playerCount : Int) : Int :=
  (chainOwnerPosition + getEffectiveRound currentRound playerCount).tmod playerCount

/-- Embedding of `getNextChainHolder` (game-logic.ts line 111):
`(currentHolderPosition + 1) % playerCount`. -/
def getNextChainHolder (currentHolderPosition playerCount : Int) : Int :=
  (currentHolderPosition + 1).tmod playerCount

/-- Embedding of `getTotalRounds` (game-logic.ts line 131):
`isEvenPlayers ? playerCount + 1 : playerCount`. -/
def getTotalRounds (playerCount : Int) : Int :=
  if playerCount.tmod 2 = 0 then playerCount + 1 else playerCount

/-- Embedding of `isGameComplete` (game-logic.ts line 122):
`currentRound >= getTotalRounds(playerCount)`. -/
def isGameComplete (currentRound playerCount : Int) : Bool :=
  decide (getTotalRounds playerCount ≤ currentRound)

/-- JavaScript evenness test `n % 2 === 0` agrees with `Even` on `Int`. -/
lemma tmod_two_eq_zero_iff_even (n : Int) : n.tmod 2 = 0 ↔ Even n := by
  rw [← Int.dvd_iff_tmod_eq_zero, Int.dvd_iff_emod_eq_zero, ← Int.even_iff]

/-- Truncated remainder is congruent to the dividend modulo the divisor. -/
lemma tmod_emod (a n : Int) : a.tmod n % n = a % n := by
  have h : a.tmod n = a + n * (-(a.tdiv n)) := by
    have := Int.tdiv_add_tmod a n
    linarith
  rw [h, Int.add_mul_emod_self_left]

/-- Truncated remainder by a positive divisor is strictly above the
negated divisor. -/
lemma neg_lt_tmod (a : Int) {n : Int} (hn : 0 < n) : -n < a.tmod n := by
  cases a with
  | ofNat m =>
    have h0 : 0 ≤ Int.tmod (Int.ofNat m) n :=
      Int.tmod_nonneg n (by rw [Int.ofNat_eq_natCast]; exact Int.ofNat_nonneg m)
    linarith
  | negSucc m =>
    cases n with
    | ofNat k =>
      have hk : 0 < k := by
        rw [Int.ofNat_eq_natCast] at hn
        exact_mod_cast hn
      have hred : Int.tmod (Int.negSucc m) (Int.ofNat k) = -(Int.ofNat ((m + 1) % k)) := rfl
      have hlt : (m + 1) % k < k := Nat.mod_lt _ hk
      rw [hred, Int.ofNat_eq_natCast, Int.ofNat_eq_natCast]
      omega
    | negSucc k =>
      exact absurd hn (lt_asymm (Int.negSucc_lt_zero k))

/-- Iterating `getNextChainHolder` from a valid seat walks the cycle
`(s + k) mod n`. -/
lemma iterate_nextHolder (s n : Int) (h0 : 0 ≤ s) (h1 : s < n) (k : Nat) :
    (fun x => getNextChainHolder x n)^[k] s = (s + k) % n := by
  induction k with
  | zero => simp [Int.emod_eq_of_lt h0 h1]
  | succ k ih =>
    rw [Function.iterate_succ_apply', ih]
    have hn : 0 < n := lt_of_le_of_lt h0 h1
    have hnn : (0:Int) ≤ (s + k) % n := Int.emod_nonneg _ (by omega)
    show ((s + k) % n + 1).tmod n = _
    rw [Int.tmod_eq_emod (by omega) (by omega), Int.emod_add_emod]
    push_cast
    ring_nf

/-- C4 (counterexample): with 4 participants, `getTotalRounds 4 = 5`
iterations of `getNextChainHolder` starting from seat 0 do NOT return to
seat 0 (they land on seat 1). -/
theorem nextHolder_totalRounds_no_return :
    ¬ ((fun s => getNextChainHolder s 4)^[(getTotalRounds 4).toNat] (0 : Int) = 0) := by
  decide

/-- C4 (amended): iterating `getNextChainHolder` `n` times (the participant
count, not `getTotalRounds n` times) starting at any valid `ownerSeat`
returns to `ownerSeat`; no earlier iterate returns, and no two iterates
within the first cycle coincide, so each other seat is visited at most
once along the way. The claim as stated, with `getTotalRounds n`
iterations, holds exactly when `n` is odd (then `getTotalRounds n = n`);
for even `n` the `n + 1` iterations overshoot the owner by one seat. -/
theorem nextHolder_cycle (ownerSeat n : Int)
    (h0 : 0 ≤ ownerSeat) (h1 : ownerSeat < n) (h3 : 3 ≤ n) :
    (fun s => getNextChainHolder s n)^[n.toNat] ownerSeat = ownerSeat ∧
    (∀ k : Nat, 0 < k → (k : Int) < n →
      (fun s => getNextChainHolder s n)^[k] ownerSeat ≠ ownerSeat) ∧
    (∀ j k : Nat, j < k → (k : Int) < n →
      (fun s => getNextChainHolder s n)^[j] ownerSeat ≠
        (fun s => getNextChainHolder s n)^[k] ownerSeat) ∧
    (Odd n →
      (fun s => getNextChainHolder s n)^[(getTotalRounds n).toNat] ownerSeat = ownerSeat) := by
  have hret : (fun s => getNextChainHolder s n)^[n.toNat] ownerSeat = ownerSeat := by
    rw [iterate_nextHolder _ _ h0 h1, Int.toNat_of_nonneg (by omega),
      show ownerSeat + n = ownerSeat + n * 1 by ring, Int.add_mul_emod_self_left,
      Int.emod_eq_of_lt h0 h1]
  refine ⟨hret, ?_, ?_, ?_⟩
  · intro k hk hkn hcontra
    rw [iterate_nextHolder _ _ h0 h1] at hcontra
    have hmod : Int.ModEq n (ownerSeat + k) ownerSeat := by
      unfold Int.ModEq
      rw [hcontra, Int.emod_eq_of_lt h0 h1]
    have hdvd : n ∣ (ownerSeat - (ownerSeat + k)) := hmod.dvd
    have hdvd2 : n ∣ (k : Int) := by
      have : ownerSeat - (ownerSeat + k) = -(k : Int) := by ring
      rw [this] at hdvd
      exact (dvd_neg).mp hdvd
    have := Int.le_of_dvd (by exact_mod_cast hk) hdvd2
    omega
  · intro j k hjk hkn hcontra
    rw [iterate_nextHolder _ _ h0 h1, iterate_nextHolder _ _ h0 h1] at hcontra
    have hmod : Int.ModEq n (ownerSeat + j) (ownerSeat + k) := hcontra
    have hdvd : n ∣ ((ownerSeat + k) - (ownerSeat + j)) := hmod.dvd
    have hdvd2 : n ∣ ((k : Int) - j) := by
      have : (ownerSeat + k) - (ownerSeat + j) = (k : Int) - j := by ring
      rwa [this] at hdvd
    have hpos : (0 : Int) < (k : Int) - j := by
      have : (j : Int) < k := by exact_mod_cast hjk
      omega
    have := Int.le_of_dvd hpos hdvd2
    have : (j : Int) ≥ 0 := by positivity
    omega
  · intro hodd
    have hne : ¬ n.tmod 2 = 0 := fun hh =>
      (Int.not_odd_iff_even.mpr ((tmod_two_eq_zero_iff_even n).mp hh)) hodd
    unfold getTotalRounds
    rw [if_neg hne]
    exact hret

/-- C4 (witness for the amended theorem at ownerSeat 0, n = 5). -/
theorem nextHolder_cycle_witness :
    (fun s => getNextChainHolder s 5)^[(5 : Int).toNat] (0 : Int) = 0 :=
  (nextHolder_cycle 0 5 (by decide) (by decide) (by decide)).1

/-- C5: `getCurrentHolderPosition` inverts `getChainOwnerPosition` for every
seat with `0 ≤ seat < n` and every round `≥ 0` (the JavaScript remainder
can go negative inside `getChainOwnerPosition` when the effective round
exceeds `seat + n`, but the composition still lands back on `seat`). -/
theorem chainOwner_currentHolder_inverse (seat round n : Int)
    (h0 : 0 ≤ seat) (h1 : seat < n) (hr : 0 ≤ round) :
    getCurrentHolderPosition (getChainOwnerPosition seat round n) round n = seat := by
  have hn : 0 < n := lt_of_le_of_lt h0 h1
  have he0 : 0 ≤ getEffectiveRound round n := by
    unfold getEffectiveRound; split <;> omega
  unfold getCurrentHolderPosition getChainOwnerPosition
  generalize hE : getEffectiveRound round n = e at he0 ⊢
  have hrlow : -n < (seat - e + n).tmod n := neg_lt_tmod (seat - e + n) hn
  have hre : 0 ≤ (seat - e + n).tmod n + e := by
    by_cases hc : 0 ≤ seat - e + n
    · have hnn := Int.tmod_nonneg (a := seat - e + n) n hc
      omega
    · omega
  rw [Int.tmod_eq_emod hre (by omega)]
  calc ((seat - e + n).tmod n + e) % n
      = ((seat - e + n).tmod n % n + e) % n := (Int.emod_add_emod _ n e).symm
    _ = ((seat - e + n) % n + e) % n := by rw [tmod_emod]
    _ = ((seat - e + n) + e) % n := Int.emod_add_emod _ n e
    _ = (seat + n * 1) % n := by rw [show seat - e + n + e = seat + n * 1 by ring]
    _ = seat % n := Int.add_mul_emod_self_left seat n 1
    _ = seat := Int.emod_eq_of_lt h0 h1

/-- C5 (witness at seat 1, round 3, n = 4). -/
theorem chainOwner_currentHolder_inverse_witness :
    getCurrentHolderPosition (getChainOwnerPosition 1 3 4) 3 4 = 1 :=
  chainOwner_currentHolder_inverse 1 3 4 (by decide) (by decide) (by decide)

/-- C6: for even participant counts the effective round is 0 at round 0 and
`round - 1` for every round ≥ 1; for odd counts it equals the round
unconditionally; `getChainOwnerPosition seat 1 4 = seat` for every seat
`0 ≤ seat < 4`; and rotation begins at round 2 (`getEffectiveRound 2 4 = 1`). -/
theorem effectiveRound_spec :
    (∀ n : Int, Even n → getEffectiveRound 0 n = 0 ∧
      ∀ round : Int, 1 ≤ round → getEffectiveRound round n = round - 1) ∧
    (∀ round n : Int, ¬ Even n → getEffectiveRound round n = round) ∧
    (∀ seat : Int, 0 ≤ seat → seat < 4 → getChainOwnerPosition seat 1 4 = seat) ∧
    getEffectiveRound 2 4 = 1 := by
  refine ⟨?_, ?_, ?_, by decide⟩
  · intro n hev
    have h2 : n.tmod 2 = 0 := (tmod_two_eq_zero_iff_even n).mpr hev
    refine ⟨by simp [getEffectiveRound], ?_⟩
    intro round hround
    simp [getEffectiveRound, h2, hround]
  · intro round n hodd
    have h2 : ¬ n.tmod 2 = 0 := fun hh => hodd ((tmod_two_eq_zero_iff_even n).mp hh)
    simp [getEffectiveRound, h2]
  · intro seat hs0 hs4
    unfold getChainOwnerPosition getEffectiveRound
    rw [if_pos (by decide : (4:Int).tmod 2 = 0 ∧ (1:Int) ≤ 1)]
    rw [show seat - (1 - 1) + 4 = seat + 4 by ring,
      Int.tmod_eq_emod (by omega) (by omega)]
    omega

/-- C6 (witness: seat 2 keeps its own chain at round 1 with 4 players, and
an even count shifts round 7 to effective round 6). -/
theorem effectiveRound_spec_witness :
    getChainOwnerPosition 2 1 4 = 2 ∧ getEffectiveRound 7 4 = 6 := by
  constructor
  · exact effectiveRound_spec.2.2.1 2 (by decide) (by decide)
  · have := (effectiveRound_spec.1 4 ⟨2, by norm_num⟩).2 7 (by decide)
    omega

/-- C7: round 0 is always `word`; for round ≥ 1 the category depends only
on the parity of the round (odd → `draw`, even → `guess`), independent of
the participant count; the earlier two-argument variant computes the same
function as the current one-argument `getTaskType`. -/
theorem taskType_spec :
    getTaskType 0 = TaskType.word ∧
    (∀ round : Int, 1 ≤ round →
      (Odd round → getTaskType round = TaskType.draw) ∧
      (Even round → getTaskType round = TaskType.guess)) ∧
    (∀ round playerCount : Int, getTaskTypeLegacy round playerCount = getTaskType round) := by
  refine ⟨by decide, ?_, fun round pc => rfl⟩
  intro round hround
  constructor
  · intro hodd
    have h0 : ¬ round = 0 := by omega
    have h1 : round.tmod 2 = 1 := by
      rw [Int.tmod_eq_emod (by omega) (by omega)]
      exact Int.odd_iff.mp hodd
    simp [getTaskType, h0, h1]
  · intro heven
    have h0 : ¬ round = 0 := by omega
    have h1 : round.tmod 2 = 0 := (tmod_two_eq_zero_iff_even round).mpr heven
    have h2 : ¬ round.tmod 2 = 1 := by omega
    simp [getTaskType, h0, h2]

/-- C7 (witness: rounds 0, 3 and 4 with various participant counts). -/
theorem taskType_spec_witness :
    getTaskType 3 = TaskType.draw ∧ getTaskType 4 = TaskType.guess ∧
    getTaskTypeLegacy 3 4 = getTaskType 3 := by
  refine ⟨?_, ?_, taskType_spec.2.2 3 4⟩
  · exact (taskType_spec.2.1 3 (by decide)).1 ⟨1, by norm_num⟩
  · exact (taskType_spec.2.1 4 (by decide)).2 ⟨2, by norm_num⟩

/-- C8: `getTotalRounds n` is `n` for odd `n` and `n + 1` for even `n`,
and `isGameComplete round n` holds iff `round ≥ getTotalRounds n`. -/
theorem totalRounds_complete_spec (n : Int) (_hmin : 3 ≤ n) :
    (Odd n → getTotalRounds n = n) ∧
    (Even n → getTotalRounds n = n + 1) ∧
    (∀ round : Int, isGameComplete round n = true ↔ getTotalRounds n ≤ round) := by
  refine ⟨?_, ?_, fun round => by simp [isGameComplete]⟩
  · intro hodd
    have hne : ¬ n.tmod 2 = 0 := fun hh =>
      (Int.not_odd_iff_even.mpr ((tmod_two_eq_zero_iff_even n).mp hh)) hodd
    simp [getTotalRounds, hne]
  · intro heven
    simp [getTotalRounds, (tmod_two_eq_zero_iff_even n).mpr heven]

/-- C8 (witness: 4 players give 5 rounds; round 5 completes the game). -/
theorem totalRounds_complete_spec_witness :
    getTotalRounds 4 = 4 + 1 ∧ (isGameComplete 5 4 = true ↔ getTotalRounds 4 ≤ 5) :=
  ⟨(totalRounds_complete_spec 4 (by decide)).2.1 ⟨2, by norm_num⟩,
   (totalRounds_complete_spec 4 (by decide)).2.2 5⟩

/-! ## Data model (db/schema.ts) and database helpers -/

/-- Room status, the `status` column of the `games` table. -/
inductive GameStatus where
  | lobby
  | playing
  | finished
deriving DecidableEq, Repr

/-- Row of the `games` table (db/schema.ts). Nullable columns are `Option`. -/
structure Game where
  id : String
  hostDid : Option String
  status : GameStatus
  timerDuration : Int
  currentRound : Int
  roundStartTime : Option Int
  totalPlayers : Option Int
  createdAt : Int
  updatedAt : Int
deriving DecidableEq, Repr

/-- Row of the `players` table (db/schema.ts), without the autoincrement id. -/
structure Player where
  gameId : String
  did : String
  name : String
  avatar : Option String
  turnPosition : Int
  createdAt : Int
  updatedAt : Int
deriving DecidableEq, Repr

/-- Row of the `submissions` table (db/schema.ts), without the autoincrement
id. Only completion facts are stored, no content. -/
structure Submission where
  gameId : String
  chainOwnerDid : String
  round : Int
  submitterDid : String
  type : TaskType
  createdAt : Int
deriving DecidableEq, Repr

/-- Durable-storage state for one room: the game row plus the player and
submission rows (kept in insertion order). -/
structure DbState where
  game : Game
  players : List Player
  submissions : List Submission
deriving DecidableEq, Repr

/-- JavaScript `a || b` on a nullable number and a number
(`null` and `0` are falsy). -/
def jsOrInt (a : Option Int) (b : Int) : Int :=
  match a with
  | some v => if v = 0 then b else v
  | none => b

/-- JavaScript `a || b` on two nullable numbers. -/
def jsOrIntO (a b : Option Int) : Option Int :=
  match a with
  | some v => if v = 0 then b else some v
  | none => b

/-- JavaScript `a || b` on two nullable strings (empty string is falsy). -/
def jsOrStrO (a b : Option String) : Option String :=
  match a with
  | some v => if v = "" then b else some v
  | none => b

/-- Embedding of `createSubmission` (db/models/submissions.ts line 8):
inserts the row. -/
def createSubmission (subs : List Submission) (s : Submission) : List Submission :=
  subs ++ [s]

/-- Embedding of `countSubmissionsByGameAndRound`
(db/models/submissions.ts line 23). -/
def countSubmissionsByGameAndRound (subs : List Submission) (gameId : String) (round : Int) : Int :=
  ((subs.filter fun s => s.gameId == gameId && s.round == round).length : Int)

/-- Embedding of `getSubmissionBySubmitter` (db/models/submissions.ts
line 43): first row matching game, round and submitter, if any. -/
def getSubmissionBySubmitter (subs : List Submission) (gameId : String) (round : Int)
    (submitterDid : String) : Option Submission :=
  (subs.filter fun s => s.gameId == gameId && s.round == round && s.submitterDid == submitterDid).head?

/-- Embedding of `getSubmissionsByGameAndRound` (db/models/submissions.ts
line 66). -/
def getSubmissionsByGameAndRound (subs : List Submission) (gameId : String) (round : Int) :
    List Submission :=
  subs.filter fun s => s.gameId == gameId && s.round == round

/-- Ordered insert used to model the `ORDER BY turn_position` of
`getPlayersByGameId`. -/
def insertByTurnPosition (p : Player) : List Player → List Player
  | [] => [p]
  | q :: rest =>
    if p.turnPosition ≤ q.turnPosition then p :: q :: rest
    else q :: insertByTurnPosition p rest

/-- Embedding of `getPlayersByGameId` (db/models/players.ts line 36):
players of the game ordered by turn position. -/
def getPlayersByGameId (ps : List Player) (gameId : String) : List Player :=
  (ps.filter fun p => p.gameId == gameId).foldr insertByTurnPosition []

/-- Embedding of `getPlayerByDid` (db/models/players.ts line 48). -/
def getPlayerByDid (ps : List Player) (gameId : String) (did : String) : Option Player :=
  (ps.filter fun p => p.gameId == gameId && p.did == did).head?

/-- Embedding of `countPlayers` (db/models/players.ts line 63). -/
def countPlayers (ps : List Player) (gameId : String) : Int :=
  ((ps.filter fun p => p.gameId == gameId).length : Int)

/-- Embedding of `addPlayer` (db/models/players.ts line 8). -/
def addPlayer (gameId did name : String) (avatar : Option String) (turnPosition : Int)
    (now : Int) : Player :=
  { gameId := gameId, did := did, name := name, avatar := avatar,
    turnPosition := turnPosition, createdAt := now, updatedAt := now }

/-- Embedding of `createGame` (db/models/games.ts, `src/unnamed/part_005`
line 27): fresh lobby game; `roundStartTime` and `totalPlayers` start null. -/
def createGame (gameId : String) (hostDid : Option String) (timerDuration : Int)
    (now : Int) : Game :=
  { id := gameId, hostDid := hostDid, status := .lobby, timerDuration := timerDuration,
    currentRound := 0, roundStartTime := none, totalPlayers := none,
    createdAt := now, updatedAt := now }

/-- Embedding of `startGame` (db/models/games.ts, `src/unnamed/part_005`
line 61): sets status to playing, round 0 and the round start time. Note
that this function does NOT write `totalPlayers`, although its caller in
the worker passes a player count and expects it to be set. -/
def startGame (g : Game) (now : Int) : Game :=
  { g with
    status := .playing,
    currentRound := 0,
    roundStartTime := some now,
    updatedAt := now }

/-! ## Worker route handlers (the worker entry file, concatenated into
`src/server/src/db/migrations/0000_public_wild_child.sql`). The state is a
single room, so the `Game not found` branches of the routes fall away. -/

/-- Error responses of the join route. -/
inductive JoinError where
  | cannotJoinInProgress
deriving DecidableEq, Repr

/-- Embedding of `app.post('/api/game/:id/join')`: idempotent for an
existing player; otherwise only in the lobby; the new player's seat is the
current player count; the first player to join becomes the host. -/
def joinGameRoute (st : DbState) (did name : String) (avatar : Option String)
    (now : Int) : Except JoinError (DbState × Player × Bool) :=
  match getPlayerByDid st.players st.game.id did with
  | some existingPlayer => .ok (st, existingPlayer, true)
  | none =>
    if st.game.status ≠ .lobby then .error .cannotJoinInProgress
    else
      let playerCount := countPlayers st.players st.game.id
      let player := addPlayer st.game.id did name avatar playerCount now
      let game :=
        if playerCount = 0 then
          { st.game with hostDid := some did, updatedAt := now }
        else st.game
      .ok ({ st with game := game, players := st.players ++ [player] }, player, false)

/-- Error responses of the start route. -/
inductive StartError where
  | noHostAssigned
  | onlyHostCanStart
  | alreadyStarted
  | needAtLeastThreePlayers
deriving DecidableEq, Repr

/-- Embedding of `app.post('/api/game/:id/start')`: host-only, lobby-only,
at least three players; then calls `startGame` (which, in the model files
present, ignores the player count it is handed). -/
def startGameRoute (st : DbState) (did : String) (now : Int) :
    Except StartError DbState :=
  match st.game.hostDid with
  | none => .error .noHostAssigned
  | some hostDid =>
    if hostDid ≠ did then .error .onlyHostCanStart
    else if st.game.status ≠ .lobby then .error .alreadyStarted
    else
      let playerCount := countPlayers st.players st.game.id
      if playerCount < 3 then .error .needAtLeastThreePlayers
      else .ok { st with game := startGame st.game now }

/-- Error responses of the submit route. -/
inductive SubmitError where
  | gameNotInProgress
  | invalidSubmissionType
  | alreadySubmitted
deriving DecidableEq, Repr

/-- Embedding of `app.post('/api/game/:id/submit')`. The returned pair is
the storage state after the request together with the request outcome; on
success the outcome carries the updated completion count the route
computes for the current round (`submissionCount`). The round-advance
check is the JavaScript strict equality `submissionCount ===
game.totalPlayers`, which is false whenever `totalPlayers` is null. -/
def submitRoute (st : DbState) (submitterDid chainOwnerDid : String)
    (ty : TaskType) (now : Int) : DbState × Except SubmitError Int :=
  let game := st.game
  if game.status ≠ .playing then (st, .error .gameNotInProgress)
  else
    let expectedTaskType := getTaskType game.currentRound
    if ty ≠ expectedTaskType then (st, .error .invalidSubmissionType)
    else
      match getSubmissionBySubmitter st.submissions game.id game.currentRound submitterDid with
      | some _ => (st, .error .alreadySubmitted)
      | none =>
        let subs := createSubmission st.submissions
          { gameId := game.id, chainOwnerDid := chainOwnerDid,
            round := game.currentRound, submitterDid := submitterDid,
            type := ty, createdAt := now }
        let submissionCount := countSubmissionsByGameAndRound subs game.id game.currentRound
        let satisfied :=
          match game.totalPlayers with
          | some tp => submissionCount == tp
          | none => false
        if satisfied then
          let nextRound := game.currentRound + 1
          if isGameComplete nextRound (jsOrInt game.totalPlayers 0) then
            ({ st with
               game := { game with status := .finished, updatedAt := now },
               submissions := subs }, .ok submissionCount)
          else
            ({ st with
               game := { game with
                         currentRound := nextRound,
                         roundStartTime := some now,
                         updatedAt := now },
               submissions := subs }, .ok submissionCount)
        else
          ({ st with submissions := subs }, .ok submissionCount)

/-! ## The GameRoom durable object (src/server/src/durable-object.ts) -/

/-- Auto-submission loop of the `alarm` handler (durable-object.ts lines
381-403): for each player that has not submitted in the current round,
insert a completion attributed to the owner of the chain the player holds,
found by indexing the player array at `getChainOwnerPosition`. `none`
models the JavaScript TypeError raised when that index misses the array. -/
def autoSubmitLoop (gameId : String) (round : Int) (taskType : TaskType)
    (allPlayers : List Player) (submittedDids : List String) (now : Int) :
    List Player → List Submission → Option (List Submission)
  | [], acc => some acc
  | p :: rest, acc =>
    if submittedDids.contains p.did then
      autoSubmitLoop gameId round taskType allPlayers submittedDids now rest acc
    else
      let chainOwnerPosition := getChainOwnerPosition p.turnPosition round
        ((allPlayers.length : Int))
      if chainOwnerPosition < 0 then none
      else
        match allPlayers[chainOwnerPosition.toNat]? with
        | none => none
        | some chainOwner =>
          autoSubmitLoop gameId round taskType allPlayers submittedDids now rest
            (createSubmission acc
              { gameId := gameId, chainOwnerDid := chainOwner.did, round := round,
                submitterDid := p.did, type := taskType, createdAt := now })

/-- Embedding of the durable object's `alarm` handler (durable-object.ts
lines 353-431). `thisTotalPlayers` is the object's cached
`this.totalPlayers`. The handler bails out only when the room is not
`playing`; otherwise it auto-submits for every player missing a completion
in the CURRENT round and then advances (or finishes) the game. `none`
models an uncaught TypeError inside the loop. -/
def alarmHandler (st : DbState) (thisTotalPlayers : Option Int) (now : Int) :
    Option DbState :=
  let game := st.game
  if game.status ≠ .playing then some st
  else
    let submissions := getSubmissionsByGameAndRound st.submissions game.id game.currentRound
    let submittedDids := submissions.map (fun s => s.submitterDid)
    let players := getPlayersByGameId st.players game.id
    let taskType := getTaskType game.currentRound
    match autoSubmitLoop game.id game.currentRound taskType players submittedDids now
        players st.submissions with
    | none => none
    | some subs =>
      let nextRound := game.currentRound + 1
      let effectiveTotal := jsOrInt (jsOrIntO thisTotalPlayers game.totalPlayers)
        ((players.length : Int))
      if isGameComplete nextRound effectiveTotal then
        some { st with
               game := { game with status := .finished, updatedAt := now },
               submissions := subs }
      else
        some { st with
               game := { game with
                         currentRound := nextRound,
                         roundStartTime := some now,
                         updatedAt := now },
               submissions := subs }

/-- Full broadcast payload `ServerGameState` (shared/types.ts line 46):
carries the entire players roster. -/
structure ServerGameState where
  gameId : String
  status : GameStatus
  hostDid : Option String
  players : List Player
  currentRound : Int
  roundStartTime : Option Int
  timerDuration : Int
  totalPlayers : Option Int
deriving DecidableEq, Repr

/-- Incremental broadcast payload `GameStateUpdate` (shared/types.ts
line 61): no players array. -/
structure GameStateUpdate where
  gameId : String
  status : GameStatus
  currentRound : Int
  roundStartTime : Option Int
  hostDid : Option String
  timerDuration : Int
  totalPlayers : Option Int
deriving DecidableEq, Repr

/-- Wire message of the durable object: `game_state_full` or
`game_state_update`. -/
inductive OutMessage where
  | full (data : ServerGameState)
  | update (data : GameStateUpdate)
deriving DecidableEq, Repr

/-- True exactly for the message kind that carries the players roster. -/
def hasRoster : OutMessage → Bool
  | .full _ => true
  | .update _ => false

/-- Payload built by `broadcastInitialState` (durable-object.ts line 200):
game row re-read from storage plus the full roster. -/
def buildFullState (st : DbState) : ServerGameState :=
  { gameId := st.game.id, status := st.game.status, hostDid := st.game.hostDid,
    players := getPlayersByGameId st.players st.game.id,
    currentRound := st.game.currentRound, roundStartTime := st.game.roundStartTime,
    timerDuration := st.game.timerDuration, totalPlayers := st.game.totalPlayers }

/-- Payload built by `broadcastState` (durable-object.ts line 284): mutable
scalars re-read from storage, cached write-once scalars filled in with the
JavaScript `||` fallbacks, and no players array. -/
def buildStateUpdate (st : DbState) (cachedHostDid : Option String)
    (cachedTimerDuration cachedTotalPlayers : Option Int) : GameStateUpdate :=
  { gameId := st.game.id, status := st.game.status,
    currentRound := st.game.currentRound, roundStartTime := st.game.roundStartTime,
    hostDid := jsOrStrO cachedHostDid st.game.hostDid,
    timerDuration := jsOrInt cachedTimerDuration st.game.timerDuration,
    totalPlayers := jsOrIntO cachedTotalPlayers st.game.totalPlayers }

/-- Notifications the durable object reacts to: a WebSocket (re)connection
(`handleWebSocket`) or one of the worker's POST endpoints. -/
inductive RoomEvent where
  | connect (ws : Nat)
  | playerJoined
  | gameStarted
  | roundAdvanced
  | gameEnded
  | submissionReceived
deriving DecidableEq, Repr

/-- Messages the durable object emits per event, as pairs of recipient
connection and payload (durable-object.ts `fetch`, `handleWebSocket`,
`broadcastInitialState`, `broadcastState`): a connecting client alone
receives full state; `player_joined` and `game_started` broadcast full
state to every connection; `round_advanced`, `game_ended` and
`submission_received` broadcast the incremental update to every
connection. -/
def dispatchMessages (st : DbState) (cachedHostDid : Option String)
    (cachedTimerDuration cachedTotalPlayers : Option Int)
    (connections : List Nat) : RoomEvent → List (Nat × OutMessage)
  | .connect ws => [(ws, .full (buildFullState st))]
  | .playerJoined => connections.map (fun w => (w, .full (buildFullState st)))
  | .gameStarted => connections.map (fun w => (w, .full (buildFullState st)))
  | .roundAdvanced => connections.map
      (fun w => (w, .update (buildStateUpdate st cachedHostDid cachedTimerDuration cachedTotalPlayers)))
  | .gameEnded => connections.map
      (fun w => (w, .update (buildStateUpdate st cachedHostDid cachedTimerDuration cachedTotalPlayers)))
  | .submissionReceived => connections.map
      (fun w => (w, .update (buildStateUpdate st cachedHostDid cachedTimerDuration cachedTotalPlayers)))

/-! ## Theorems about the stateful operations -/

/-- Appending a submission that matches the game and round raises the
completion count of that round by one. -/
lemma count_append_new (subs : List Submission) (gid : String) (round : Int)
    (s : Submission) (hg : s.gameId = gid) (hr : s.round = round) :
    countSubmissionsByGameAndRound (subs ++ [s]) gid round =
      countSubmissionsByGameAndRound subs gid round + 1 := by
  subst hg hr
  simp [countSubmissionsByGameAndRound, List.filter_append]

/-- C3: a submission fails, leaving the stored state untouched, when the
room is not playing (`gameNotInProgress`, the spec's RoomNotPlaying), when
the submitted category is not the task category of the current round
(`invalidSubmissionType`, the spec's WrongCategory), or when the submitter
already has a completion for the current round (`alreadySubmitted`, the
spec's DuplicateCompletion); on success it appends exactly one completion
record and returns the updated completion count of the round. -/
theorem record_spec (st : DbState) (submitterDid chainOwnerDid : String)
    (ty : TaskType) (now : Int) :
    (st.game.status ≠ .playing →
      submitRoute st submitterDid chainOwnerDid ty now = (st, .error .gameNotInProgress)) ∧
    (st.game.status = .playing → ty ≠ getTaskType st.game.currentRound →
      submitRoute st submitterDid chainOwnerDid ty now = (st, .error .invalidSubmissionType)) ∧
    (st.game.status = .playing → ty = getTaskType st.game.currentRound →
      (getSubmissionBySubmitter st.submissions st.game.id st.game.currentRound
        submitterDid).isSome →
      submitRoute st submitterDid chainOwnerDid ty now = (st, .error .alreadySubmitted)) ∧
    (st.game.status = .playing → ty = getTaskType st.game.currentRound →
      getSubmissionBySubmitter st.submissions st.game.id st.game.currentRound
        submitterDid = none →
      (submitRoute st submitterDid chainOwnerDid ty now).1.submissions =
        st.submissions ++
          [{ gameId := st.game.id, chainOwnerDid := chainOwnerDid,
             round := st.game.currentRound, submitterDid := submitterDid,
             type := ty, createdAt := now }] ∧
      (submitRoute st submitterDid chainOwnerDid ty now).2 =
        .ok (countSubmissionsByGameAndRound st.submissions st.game.id
          st.game.currentRound + 1)) := by
  refine ⟨?_, ?_, ?_, ?_⟩
  · intro h1
    simp [submitRoute, h1]
  · intro h1 h2
    simp [submitRoute, h1, h2]
  · intro h1 h2 h3
    obtain ⟨s, hs⟩ := Option.isSome_iff_exists.mp h3
    simp [submitRoute, h1, h2, hs]
  · intro h1 h2 h3
    subst h2
    have hcount := count_append_new st.submissions st.game.id st.game.currentRound
      { gameId := st.game.id, chainOwnerDid := chainOwnerDid,
        round := st.game.currentRound, submitterDid := submitterDid,
        type := getTaskType st.game.currentRound, createdAt := now } rfl rfl
    constructor
    · simp only [submitRoute, h1, h3, createSubmission, ne_eq,
        not_true_eq_false, if_false, ite_false]
      split
      · split <;> rfl
      · rfl
    · simp only [submitRoute, h1, h3, createSubmission, ne_eq,
        not_true_eq_false, if_false, ite_false]
      split
      · split <;> rw [hcount]
      · rw [hcount]

/-! ## Concrete room fixtures used by closed theorems -/

/-- Player on seat 0 of room R. -/
def playerA : Player :=
  { gameId := "R", did := "did:a", name := "Ann", avatar := none,
    turnPosition := 0, createdAt := 1, updatedAt := 1 }

/-- Player on seat 1 of room R. -/
def playerB : Player :=
  { gameId := "R", did := "did:b", name := "Ben", avatar := none,
    turnPosition := 1, createdAt := 2, updatedAt := 2 }

/-- Player on seat 2 of room R. -/
def playerC : Player :=
  { gameId := "R", did := "did:c", name := "Cal", avatar := none,
    turnPosition := 2, createdAt := 3, updatedAt := 3 }

/-- Room R mid-game: three players, round 1 under way since time 200
(round 0 started at time 100 and advanced since), `totalPlayers` null as
`startGame` leaves it. -/
def samplePlayingGame : Game :=
  { id := "R", hostDid := some "did:a", status := .playing, timerDuration := 60,
    currentRound := 1, roundStartTime := some 200, totalPlayers := none,
    createdAt := 0, updatedAt := 200 }

/-- Completions of room R: all of round 0, plus Ann's draw of round 1. -/
def sampleSubmissions : List Submission :=
  [{ gameId := "R", chainOwnerDid := "did:a", round := 0, submitterDid := "did:a",
     type := .word, createdAt := 110 },
   { gameId := "R", chainOwnerDid := "did:b", round := 0, submitterDid := "did:b",
     type := .word, createdAt := 120 },
   { gameId := "R", chainOwnerDid := "did:c", round := 0, submitterDid := "did:c",
     type := .word, createdAt := 130 },
   { gameId := "R", chainOwnerDid := "did:c", round := 1, submitterDid := "did:a",
     type := .draw, createdAt := 210 }]

/-- Storage state of room R mid-round-1. -/
def samplePlayingState : DbState :=
  { game := samplePlayingGame, players := [playerA, playerB, playerC],
    submissions := sampleSubmissions }

/-- Storage state of room R after it finished. -/
def sampleFinishedState : DbState :=
  { game := { samplePlayingGame with status := .finished },
    players := [playerA, playerB, playerC],
    submissions := sampleSubmissions }

/-- C3 (witness): concrete requests against room R exercise all three
failure modes and the success path of the submit route. -/
theorem record_spec_witness :
    submitRoute sampleFinishedState "did:b" "did:b" .draw 250 =
      (sampleFinishedState, .error .gameNotInProgress) ∧
    submitRoute samplePlayingState "did:b" "did:b" .word 250 =
      (samplePlayingState, .error .invalidSubmissionType) ∧
    submitRoute samplePlayingState "did:a" "did:c" .draw 250 =
      (samplePlayingState, .error .alreadySubmitted) ∧
    (submitRoute samplePlayingState "did:b" "did:a" .draw 250).2 =
      .ok (countSubmissionsByGameAndRound samplePlayingState.submissions
        samplePlayingState.game.id samplePlayingState.game.currentRound + 1) :=
  ⟨(record_spec sampleFinishedState "did:b" "did:b" .draw 250).1 (by decide),
   (record_spec samplePlayingState "did:b" "did:b" .word 250).2.1 rfl (by decide),
   (record_spec samplePlayingState "did:a" "did:c" .draw 250).2.2.1 rfl (by decide)
     (by decide),
   ((record_spec samplePlayingState "did:b" "did:a" .draw 250).2.2.2 rfl (by decide)
     (by decide)).2⟩

/-- C2 (counterexample): the alarm of room R was armed while round 0 was
running (`roundStartTime` 100); it fires at time 300, after the round has
advanced (stored `roundStartTime` is now 200 ≠ 100) with the room still
`playing`. The handler is NOT a no-op: it inserts two auto-completions
for round 1 and advances the room to round 2. -/
theorem alarm_writes_despite_stale_round :
    samplePlayingState.game.status = .playing ∧
    samplePlayingState.game.roundStartTime = some 200 ∧
    (100 : Int) ≠ 200 ∧
    (alarmHandler samplePlayingState none 300).map
      (fun st => (st.game.currentRound, (st.submissions.length : Int))) = some (2, 6) ∧
    alarmHandler samplePlayingState none 300 ≠ some samplePlayingState := by
  refine ⟨rfl, rfl, by decide, by decide, by decide⟩

/-- C2 (amended): the alarm handler is a no-op — it returns the storage
state unchanged, inserting no completion and touching no room field —
exactly when the room's status is not `playing`. It performs no
staleness check against the `roundStartTime` it was armed for: a firing
that finds the room still `playing` proceeds against the room's current
round even if the round advanced after arming. -/
theorem alarm_noop_when_not_playing (st : DbState) (thisTotalPlayers : Option Int)
    (now : Int) (h : st.game.status ≠ .playing) :
    alarmHandler st thisTotalPlayers now = some st := by
  simp [alarmHandler, h]

/-- C2 (witness for the amended theorem on the finished room R). -/
theorem alarm_noop_when_not_playing_witness :
    alarmHandler sampleFinishedState none 999 = some sampleFinishedState :=
  alarm_noop_when_not_playing sampleFinishedState none 999 (by decide)

/-- C9: a (re)connecting client is the only recipient of the full-state
message with the roster, whatever the room phase; the mid-game
transitions — round advanced, game ended, submission received — broadcast
only the incremental payload, which carries no players array. -/
theorem broadcast_tiering (st : DbState) (cachedHostDid : Option String)
    (cachedTimerDuration cachedTotalPlayers : Option Int)
    (connections : List Nat) (c : Nat) :
    dispatchMessages st cachedHostDid cachedTimerDuration cachedTotalPlayers
      connections (.connect c) = [(c, .full (buildFullState st))] ∧
    (∀ w m, (w, m) ∈ dispatchMessages st cachedHostDid cachedTimerDuration
      cachedTotalPlayers connections (.connect c) → w = c) ∧
    (∀ ev, (ev = RoomEvent.roundAdvanced ∨ ev = RoomEvent.gameEnded ∨
        ev = RoomEvent.submissionReceived) →
      ∀ w m, (w, m) ∈ dispatchMessages st cachedHostDid cachedTimerDuration
        cachedTotalPlayers connections ev → hasRoster m = false) := by
  refine ⟨rfl, ?_, ?_⟩
  · intro w m hm
    simp [dispatchMessages] at hm
    exact hm.1
  · rintro ev (rfl | rfl | rfl) w m hm <;>
    · simp [dispatchMessages] at hm
      obtain ⟨x, hx, hxw, hxm⟩ := hm
      rw [← hxm]
      rfl

/-- C9 (witness on room R with two listeners and a reconnecting third). -/
theorem broadcast_tiering_witness :
    dispatchMessages samplePlayingState none none none [7, 8] (.connect 9) =
      [(9, .full (buildFullState samplePlayingState))] ∧
    hasRoster (.update (buildStateUpdate samplePlayingState none none none)) = false :=
  ⟨(broadcast_tiering samplePlayingState none none none [7, 8] 9).1,
   (broadcast_tiering samplePlayingState none none none [7, 8] 9).2.2
     .roundAdvanced (Or.inl rfl) 7
     (.update (buildStateUpdate samplePlayingState none none none)) (by decide)⟩

/-- C10: a room is created with a null host; the join request that finds
zero existing participants installs the joiner as host; any join that
finds a nonzero participant count leaves `hostDid` unchanged (both the
idempotent re-join path and the normal join path). -/
theorem host_assignment :
    (∀ gameId timerDuration now,
      (createGame gameId none timerDuration now).hostDid = none) ∧
    (∀ st did name avatar now, st.game.status = .lobby →
      getPlayerByDid st.players st.game.id did = none →
      countPlayers st.players st.game.id = 0 →
      ∃ st2 p, joinGameRoute st did name avatar now = .ok (st2, p, false) ∧
        st2.game.hostDid = some did) ∧
    (∀ st did name avatar now st2 p b,
      countPlayers st.players st.game.id ≠ 0 →
      joinGameRoute st did name avatar now = .ok (st2, p, b) →
      st2.game.hostDid = st.game.hostDid) := by
  refine ⟨fun _ _ _ => rfl, ?_, ?_⟩
  · intro st did name avatar now h1 h2 h3
    refine ⟨{ st with
              game := { st.game with hostDid := some did, updatedAt := now },
              players := st.players ++ [addPlayer st.game.id did name avatar 0 now] },
            addPlayer st.game.id did name avatar 0 now, ?_, rfl⟩
    simp [joinGameRoute, h1, h2, h3]
  · intro st did name avatar now st2 p b h1 hok
    unfold joinGameRoute at hok
    cases hpd : getPlayerByDid st.players st.game.id did with
    | some q =>
      rw [hpd] at hok
      simp at hok
      obtain ⟨hst, _, _⟩ := hok
      rw [← hst]
    | none =>
      rw [hpd] at hok
      by_cases hl : st.game.status ≠ GameStatus.lobby
      · simp [hl] at hok
      · simp only [hl, if_false, ite_false] at hok
        rw [if_neg h1] at hok
        simp at hok
        obtain ⟨hst, _, _⟩ := hok
        rw [← hst]

/-- C10 (witness: joining the fresh room G makes Ann host; Ben's later
join leaves it unchanged). -/
theorem host_assignment_witness :
    (createGame "G" none 60 10).hostDid = none ∧
    (∃ st2 p, joinGameRoute
        { game := createGame "G" none 60 10, players := [], submissions := [] }
        "did:a" "Ann" none 11 = .ok (st2, p, false) ∧
      st2.game.hostDid = some "did:a") :=
  ⟨host_assignment.1 "G" 60 10,
   host_assignment.2.1
     { game := createGame "G" none 60 10, players := [], submissions := [] }
     "did:a" "Ann" none 11 rfl (by decide) (by decide)⟩

/-! ## The totalPlayers regression (claim of the submit-path round advance) -/

/-- One join step, keeping only the resulting storage state. -/
def stepJoin (st : DbState) (did name : String) (now : Int) : Option DbState :=
  (joinGameRoute st did name none now).toOption.map (fun r => r.1)

/-- One submit step by `did` on its own chain, keeping the state when the
route accepted the submission. -/
def stepSubmit (st : DbState) (did : String) (ty : TaskType) (now : Int) : Option DbState :=
  let r := submitRoute st did did ty now
  r.2.toOption.map (fun _ => r.1)

/-- Room G run end to end through the real route handlers: created, three
players joined, started by the host, then all three players successfully
submit their round-0 word. -/
def roundZeroScenario : Option DbState := do
  let st0 : DbState := { game := createGame "G" none 60 10, players := [], submissions := [] }
  let st1 ← stepJoin st0 "did:a" "Ann" 11
  let st2 ← stepJoin st1 "did:b" "Ben" 12
  let st3 ← stepJoin st2 "did:c" "Cal" 13
  let st4 ← (startGameRoute st3 "did:a" 20).toOption
  let st5 ← stepSubmit st4 "did:a" .word 30
  let st6 ← stepSubmit st5 "did:b" .word 31
  stepSubmit st6 "did:c" .word 32

/-- C1 (the code at the failing input): after the room started and all
three of its players submitted round 0, the room still sits in round 0
with status `playing` and `totalPlayers` still null — the submit route
never observes `submissionCount === totalPlayers`, because `startGame`
(db/models/games.ts) writes status, round and start time but not
`totalPlayers`, even though its caller passes the player count and the
schema documents the column as set on start. The claimed round
transition on the Nth client submission therefore never fires. -/
theorem submit_path_never_advances :
    roundZeroScenario.map (fun st =>
      (st.game.status, st.game.currentRound, st.game.totalPlayers,
        countSubmissionsByGameAndRound st.submissions "G" 0)) =
      some (GameStatus.playing, 0, none, 3) := by
  rfl

end DrawGame
